import Mathlib

/-!
Verification of the priority producer-consumer buffer
(`src/producer_consumer.py`) and its web controller (`src/app.py`).

The Python code is shallowly embedded: each method becomes a pure Lean
function on an explicit state; an operation that would block a thread
(semaphore acquire on a full/empty buffer) is modelled as being disabled,
returning `none`, so "completed operation" in the spec corresponds to a
`some` result here.  Python ints are `Int` (or `Nat` for counters that
start at 0 and only grow), Python floats used only as comparable
timestamps are `Int`, and a sequential history of completed operations
is a `List Op` folded over the state.
-/

/-- Python `class Priority(IntEnum)`: CRITICAL = 1, HIGH = 2, MEDIUM = 3, LOW = 4
(lower value = higher priority). -/
inductive Priority where
  | CRITICAL
  | HIGH
  | MEDIUM
  | LOW
deriving DecidableEq, Repr

/-- The numeric value of a `Priority` member (`p.value` in Python). -/
def Priority.toInt : Priority → Int
  | .CRITICAL => 1
  | .HIGH => 2
  | .MEDIUM => 3
  | .LOW => 4

/-- Membership test `item.priority in Priority` together with the
constructor `Priority(item.priority)`: recover a member
from its numeric value, if the value is one of the four members. -/
def Priority.ofInt? (n : Int) : Option Priority :=
  if n = 1 then some .CRITICAL
  else if n = 2 then some .HIGH
  else if n = 3 then some .MEDIUM
  else if n = 4 then some .LOW
  else none

/-- Lookup `Priority[name]`: member lookup by name, raising KeyError (here `none`)
for anything outside the four member names. Used by `app.py`'s add_item. -/
def Priority.fromName (s : String) : Option Priority :=
  if s = "CRITICAL" then some .CRITICAL
  else if s = "HIGH" then some .HIGH
  else if s = "MEDIUM" then some .MEDIUM
  else if s = "LOW" then some .LOW
  else none

/-- Python `@dataclass(order=True) class PriorityItem`: fields in declaration order
`priority: int`, `item_id: int`, `data: str`, `timestamp: float`.
`timestamp` is filled in by `__post_init__` with the creation time when not
supplied; here every construction passes it explicitly.  Timestamps are
modelled as `Int` (only their ordering matters). -/
structure PriorityItem where
  priority : Int
  item_id : Int
  data : String
  timestamp : Int
deriving DecidableEq, Repr

/-- The comparison generated by `@dataclass(order=True)`: lexicographic on
the field tuple `(priority, item_id, data, timestamp)`, exactly as Python
compares the tuples of fields in declaration order. -/
def PriorityItem.ltb (a b : PriorityItem) : Bool :=
  if a.priority ≠ b.priority then decide (a.priority < b.priority)
  else if a.item_id ≠ b.item_id then decide (a.item_id < b.item_id)
  else if a.data ≠ b.data then decide (a.data < b.data)
  else decide (a.timestamp < b.timestamp)

/-- Heap removal `queue.PriorityQueue.get`: remove and return the smallest element of the
heap under the item comparison.  Among fully-equal duplicates any choice is
value-identical; this picks the earliest occurrence. -/
def popMin : List PriorityItem → Option (PriorityItem × List PriorityItem)
  | [] => none
  | x :: xs =>
    match popMin xs with
    | none => some (x, xs)
    | some (m, rest) =>
      if PriorityItem.ltb m x then some (m, x :: rest) else some (x, xs)

/-- The per-priority production counters `items_by_priority`
(`{p: 0 for p in Priority}` at construction). -/
structure PriorityCounts where
  critical : Nat
  high : Nat
  medium : Nat
  low : Nat
deriving DecidableEq, Repr

/-- Counter lookup `items_by_priority[p]`. -/
def PriorityCounts.get (c : PriorityCounts) : Priority → Nat
  | .CRITICAL => c.critical
  | .HIGH => c.high
  | .MEDIUM => c.medium
  | .LOW => c.low

/-- Counter increment `items_by_priority[p] += 1`. -/
def PriorityCounts.bump (c : PriorityCounts) : Priority → PriorityCounts
  | .CRITICAL => { c with critical := c.critical + 1 }
  | .HIGH => { c with high := c.high + 1 }
  | .MEDIUM => { c with medium := c.medium + 1 }
  | .LOW => { c with low := c.low + 1 }

/-- The sum of the four per-priority counters. -/
def PriorityCounts.sum (c : PriorityCounts) : Nat :=
  c.critical + c.high + c.medium + c.low

/-- The mutable state of one `PriorityBuffer`: the priority-queue contents
(as the multiset of buffered items; `consume` extracts the minimum, so only
the collection matters), the fixed capacity, and the statistics counters.
The two semaphores `empty_slots`/`filled_slots` are determined by this
state in any quiescent moment: `empty_slots = max_size - buffer.length`,
`filled_slots = buffer.length`; sequentially they show up only as the
enabledness conditions of `produce` and `consume`. -/
structure BufferState where
  max_size : Nat
  buffer : List PriorityItem
  total_produced : Nat
  total_consumed : Nat
  items_by_priority : PriorityCounts
deriving DecidableEq, Repr

/-- The state built by `PriorityBuffer.__init__` for a non-negative
`max_size`: empty queue, all counters zero. -/
def BufferState.init (m : Nat) : BufferState :=
  { max_size := m
    buffer := []
    total_produced := 0
    total_consumed := 0
    items_by_priority := ⟨0, 0, 0, 0⟩ }

/-- Constructor `PriorityBuffer.__init__(max_size)`: `threading.Semaphore(max_size)`
raises ValueError for a negative initial value, so construction fails
(`none`) exactly when `max_size < 0`.  `max_size = 0` constructs fine:
`queue.PriorityQueue(maxsize=0)` is unbounded and `Semaphore(0)` is legal
(that semaphore simply can never be acquired). -/
def PriorityBuffer.mkBuffer (max_size : Int) : Option BufferState :=
  if max_size < 0 then none else some (BufferState.init max_size.toNat)

/-- Method `PriorityBuffer.produce(item)`: acquire `empty_slots` (enabled iff a
slot is free, i.e. `buffer.length < max_size`), insert the item, bump
`total_produced`, and bump `items_by_priority[Priority(item.priority)]`
only when `item.priority in Priority`. -/
def BufferState.produce (s : BufferState) (item : PriorityItem) :
    Option BufferState :=
  if s.buffer.length < s.max_size then
    some { s with
      buffer := s.buffer ++ [item]
      total_produced := s.total_produced + 1
      items_by_priority :=
        match Priority.ofInt? item.priority with
        | some p => s.items_by_priority.bump p
        | none => s.items_by_priority }
  else none

/-- Method `PriorityBuffer.consume()`: acquire `filled_slots` (enabled iff an item
is present), remove the smallest item under the dataclass order, and bump
`total_consumed`. -/
def BufferState.consume (s : BufferState) :
    Option (PriorityItem × BufferState) :=
  match popMin s.buffer with
  | none => none
  | some (m, rest) =>
    some (m, { s with buffer := rest, total_consumed := s.total_consumed + 1 })

/-- The snapshot returned by `PriorityBuffer.get_stats()`. -/
structure Stats where
  size : Nat
  max_size : Nat
  total_produced : Nat
  total_consumed : Nat
  items_by_priority : PriorityCounts
deriving DecidableEq, Repr

/-- Method `PriorityBuffer.get_stats()`: a snapshot of size, capacity and the
counters, taken under the same mutex as produce/consume. -/
def BufferState.get_stats (s : BufferState) : Stats :=
  { size := s.buffer.length
    max_size := s.max_size
    total_produced := s.total_produced
    total_consumed := s.total_consumed
    items_by_priority := s.items_by_priority }

/-- One completed buffer operation of a sequential history. -/
inductive Op where
  | produce (item : PriorityItem)
  | consume
deriving DecidableEq, Repr

/-- Run one operation; `none` when the operation could not complete
(its semaphore acquire would block). -/
def applyOp (s : BufferState) : Op → Option BufferState
  | .produce item => s.produce item
  | .consume => (s.consume).map (fun r => r.2)

/-- Run a sequential history of operations, failing if any step is not
enabled. -/
def applyOps (s : BufferState) : List Op → Option BufferState
  | [] => some s
  | op :: ops =>
    match applyOp s op with
    | none => none
    | some s2 => applyOps s2 ops

/-- Produce a list of items in order (helper for concrete scenarios). -/
def produceAll (s : BufferState) : List PriorityItem → Option BufferState
  | [] => some s
  | item :: items =>
    match s.produce item with
    | none => none
    | some s2 => produceAll s2 items

/-- Consume `n` times, collecting the returned items in order. -/
def consumeN (s : BufferState) : Nat → Option (List PriorityItem × BufferState)
  | 0 => some ([], s)
  | n + 1 =>
    match s.consume with
    | none => none
    | some (x, s2) =>
      match consumeN s2 n with
      | none => none
      | some (xs, s3) => some (x :: xs, s3)

/-! ## The web controller (`src/app.py`) -/

/-- The outcome of `POST /api/start` (`start_system` in `app.py`). -/
inductive StartOutcome where
  | alreadyRunning
  | valueError
  | started (buffer : BufferState) (num_producers num_consumers : Nat)
      (items_per_producer : Int)
deriving DecidableEq, Repr

/-- Whether a `StartOutcome` launched a session. -/
def StartOutcome.isStarted : StartOutcome → Bool
  | .started _ _ _ _ => true
  | _ => false

/-- Handler `start_system` from `app.py`: returns the already-running error when a
session is active; otherwise builds `PriorityBuffer(max_size=buffer_size)`
(which raises ValueError for a negative size — modelled as `valueError`,
surfaced by Flask as an uncaught exception, not a JSON error response) and
launches the workers.  There is no validation of any parameter:
`range(n)` for `n ≤ 0` is empty, so non-positive worker counts simply
launch zero workers of that kind (`Int.toNat`). -/
def start_system (system_running : Bool)
    (num_producers num_consumers items_per_producer buffer_size : Int) :
    StartOutcome :=
  if system_running then .alreadyRunning
  else
    match PriorityBuffer.mkBuffer buffer_size with
    | none => .valueError
    | some b =>
      .started b num_producers.toNat num_consumers.toNat items_per_producer

/-- The JSON outcome of `POST /api/add_item` (`add_item` in `app.py`). -/
inductive AddItemResult where
  | notInitialized
  | invalidPriority (priority_name : String)
  | added (priority_name item_data : String)
deriving DecidableEq, Repr

/-- Handler `add_item` from `app.py`.  The handler never mutates the buffer itself:
on success it spawns a daemon thread running `buffer.produce(item)` and
returns immediately, so its whole effect is the HTTP response plus the item
(if any) handed to that thread — returned here as the second component
(`none` means no produce was submitted and the buffer is untouched).
`now` is the `time.time()` value `__post_init__` stamps on the new item.
Guard order as in the source: the `if not buffer` check comes first, so a
missing buffer wins over any priority validation; then `Priority[name]`
raises KeyError (caught, 400 response) for an unknown name; otherwise the
item is built with the manual-item sentinel id `-1`. -/
def add_item (now : Int) (buffer : Option BufferState)
    (priority_name item_data : String) :
    AddItemResult × Option PriorityItem :=
  match buffer with
  | none => (.notInitialized, none)
  | some _ =>
    match Priority.fromName priority_name with
    | none => (.invalidPriority priority_name, none)
    | some p =>
      (.added priority_name item_data, some ⟨p.toInt, -1, item_data, now⟩)

/-! ## Invariant machinery -/

/-- A property of buffer states preserved by every enabled `produce` and
`consume` step is preserved by any completed history, provided every
operation of the history satisfies `Q`. -/
theorem applyOps_preserves (P : BufferState → Prop) (Q : Op → Prop)
    (hprod : ∀ s item s2, P s → Q (.produce item) →
      s.produce item = some s2 → P s2)
    (hcons : ∀ s x s2, P s → s.consume = some (x, s2) → P s2) :
    ∀ ops : List Op, (∀ op ∈ ops, Q op) →
      ∀ s s2, P s → applyOps s ops = some s2 → P s2 := by
  intro ops
  induction ops with
  | nil =>
    intro _ s s2 hP h
    simp [applyOps] at h
    exact h ▸ hP
  | cons op ops ih =>
    intro hQ s s2 hP h
    simp only [applyOps] at h
    cases hop : applyOp s op with
    | none => rw [hop] at h; exact absurd h (by simp)
    | some s1 =>
      rw [hop] at h
      have hQop : Q op := hQ op (List.mem_cons_self op ops)
      have hQrest : ∀ o ∈ ops, Q o := fun o ho => hQ o (List.mem_cons_of_mem _ ho)
      refine ih hQrest s1 s2 ?_ h
      cases op with
      | produce item => exact hprod s item s1 hP hQop hop
      | consume =>
        simp only [applyOp, Option.map_eq_some'] at hop
        obtain ⟨⟨x, s1'⟩, hc, he⟩ := hop
        exact he ▸ hcons s x s1' hP hc

/-- Lemma: `popMin` removes exactly one element: the rest is one shorter. -/
theorem popMin_length : ∀ l m rest, popMin l = some (m, rest) →
    rest.length + 1 = l.length := by
  intro l
  induction l with
  | nil => intro m rest h; simp [popMin] at h
  | cons x xs ih =>
    intro m rest h
    simp only [popMin] at h
    cases hp : popMin xs with
    | none => rw [hp] at h; simp_all
    | some r =>
      obtain ⟨m', rest'⟩ := r
      rw [hp] at h
      by_cases hlt : PriorityItem.ltb m' x = true
      · simp [hlt] at h
        obtain ⟨h1, h2⟩ := h
        subst h1; subst h2
        simp [← ih m' rest' hp]
      · simp [hlt] at h
        obtain ⟨h1, h2⟩ := h
        subst h1; subst h2
        simp

/-- Characterization of a completed `produce`: it was enabled, the item was
appended, `total_produced` grew by one, `total_consumed` is untouched, and
the per-priority counter of the item's priority (if it is a `Priority`
member) grew by one. -/
theorem BufferState.produce_eq {s : BufferState} {item : PriorityItem}
    {s2 : BufferState} (h : s.produce item = some s2) :
    s.buffer.length < s.max_size
    ∧ s2.buffer = s.buffer ++ [item]
    ∧ s2.max_size = s.max_size
    ∧ s2.total_produced = s.total_produced + 1
    ∧ s2.total_consumed = s.total_consumed
    ∧ s2.items_by_priority =
        (match Priority.ofInt? item.priority with
         | some p => s.items_by_priority.bump p
         | none => s.items_by_priority) := by
  unfold BufferState.produce at h
  split at h
  next hlt =>
    obtain rfl := Option.some.inj h
    exact ⟨hlt, rfl, rfl, rfl, rfl, rfl⟩
  next => cases h

/-- Characterization of a completed `consume`: the returned item is the heap
minimum, the capacity and production counters are untouched, and
`total_consumed` grew by one. -/
theorem BufferState.consume_eq {s : BufferState} {x : PriorityItem}
    {s2 : BufferState} (h : s.consume = some (x, s2)) :
    popMin s.buffer = some (x, s2.buffer)
    ∧ s2.max_size = s.max_size
    ∧ s2.total_produced = s.total_produced
    ∧ s2.total_consumed = s.total_consumed + 1
    ∧ s2.items_by_priority = s.items_by_priority := by
  unfold BufferState.consume at h
  cases hpm : popMin s.buffer with
  | none => rw [hpm] at h; cases h
  | some r =>
    obtain ⟨mx, rest⟩ := r
    rw [hpm] at h
    simp only [Option.some.injEq, Prod.mk.injEq] at h
    obtain ⟨rfl, rfl⟩ := h
    exact ⟨rfl, rfl, rfl, rfl, rfl⟩

/-- Bumping one priority counter raises that entry by one and leaves the
others alone. -/
theorem PriorityCounts.get_bump (c : PriorityCounts) (q p : Priority) :
    (c.bump q).get p = c.get p + (if q = p then 1 else 0) := by
  cases q <;> cases p <;>
    simp [PriorityCounts.bump, PriorityCounts.get]

/-- Bumping one priority counter raises the total by one. -/
theorem PriorityCounts.sum_bump (c : PriorityCounts) (p : Priority) :
    (c.bump p).sum = c.sum + 1 := by
  cases p <;> simp [PriorityCounts.bump, PriorityCounts.sum] <;> omega

/-- Boolean well-formedness of an operation: a produced item carries one of
the four declared priority values (as every item built inside the
repository does; `Producer.run` draws from `Priority`, and `add_item`
translates a member name). -/
def Op.wellFormed : Op → Bool
  | .produce item => (Priority.ofInt? item.priority).isSome
  | .consume => true

/-! ## Claims -/

/-- Claim C3: for every sequence of completed Produce and Consume operations
on a `PriorityBuffer` constructed with capacity `maxSize`, the buffer's
current size stays within `0 ≤ currentSize ≤ maxSize` after every operation
(the size is a `Nat`, so the lower bound is carried by the type, matching
`qsize() ≥ 0`), and the capacity itself never changes.  Produce is enabled
only when a slot is free, Consume only when an item is present, which is
exactly the `some`-enabledness of the embedded operations. -/
theorem C3_size_in_bounds (m : Nat) (ops : List Op) (s : BufferState)
    (h : applyOps (BufferState.init m) ops = some s) :
    s.buffer.length ≤ s.max_size ∧ s.max_size = m := by
  refine applyOps_preserves
      (fun t => t.buffer.length ≤ t.max_size ∧ t.max_size = m)
      (fun _ => True) ?_ ?_ ops (fun _ _ => trivial) _ s
      ⟨by simp [BufferState.init], rfl⟩ h
  · rintro t item t2 ⟨hP1, hP2⟩ - hpr
    obtain ⟨hlt, hbuf, hmax, -, -, -⟩ := BufferState.produce_eq hpr
    refine ⟨?_, hmax.trans hP2⟩
    rw [hbuf, hmax]
    simp only [List.length_append, List.length_cons, List.length_nil]
    omega
  · rintro t x t2 ⟨hP1, hP2⟩ hcn
    obtain ⟨hpm, hmax, -, -, -⟩ := BufferState.consume_eq hcn
    have hlen := popMin_length _ _ _ hpm
    rw [hmax]
    exact ⟨by omega, hP2⟩

/-- Witness for C3 at a concrete history on a capacity-1 buffer. -/
theorem C3_witness :
    applyOps (BufferState.init 1)
        [Op.produce ⟨1, 0, "x", 0⟩, Op.consume, Op.produce ⟨3, 1, "y", 1⟩]
      = some ⟨1, [⟨3, 1, "y", 1⟩], 2, 1, ⟨1, 0, 1, 0⟩⟩
    ∧ ((⟨1, [⟨3, 1, "y", 1⟩], 2, 1, ⟨1, 0, 1, 0⟩⟩ :
          BufferState).buffer.length
        ≤ (⟨1, [⟨3, 1, "y", 1⟩], 2, 1, ⟨1, 0, 1, 0⟩⟩ :
          BufferState).max_size
      ∧ (⟨1, [⟨3, 1, "y", 1⟩], 2, 1, ⟨1, 0, 1, 0⟩⟩ :
          BufferState).max_size = 1) :=
  ⟨by decide, C3_size_in_bounds 1
    [Op.produce ⟨1, 0, "x", 0⟩, Op.consume, Op.produce ⟨3, 1, "y", 1⟩]
    ⟨1, [⟨3, 1, "y", 1⟩], 2, 1, ⟨1, 0, 1, 0⟩⟩ (by decide)⟩

/-- Claim C4: for every sequence of completed Produce and Consume operations
on a fresh `PriorityBuffer`, `totalProduced - totalConsumed = currentSize`
holds after every completed operation (with `totalConsumed ≤ totalProduced`
so the subtraction is the ordinary one). -/
theorem C4_counter_conservation (m : Nat) (ops : List Op) (s : BufferState)
    (h : applyOps (BufferState.init m) ops = some s) :
    s.total_consumed ≤ s.total_produced
    ∧ s.total_produced - s.total_consumed = s.buffer.length := by
  have key : s.total_produced = s.total_consumed + s.buffer.length := by
    refine applyOps_preserves
        (fun t => t.total_produced = t.total_consumed + t.buffer.length)
        (fun _ => True) ?_ ?_ ops (fun _ _ => trivial) _ s
        (by simp [BufferState.init]) h
    · rintro t item t2 hP - hpr
      obtain ⟨-, hbuf, -, hprod, hcons, -⟩ := BufferState.produce_eq hpr
      rw [hprod, hcons, hbuf]
      simp only [List.length_append, List.length_cons, List.length_nil]
      omega
    · rintro t x t2 hP hcn
      obtain ⟨hpm, -, hprod, hcons, -⟩ := BufferState.consume_eq hcn
      have hlen := popMin_length _ _ _ hpm
      rw [hprod, hcons]
      omega
  exact ⟨by omega, by omega⟩

/-- Witness for C4 at a concrete history. -/
theorem C4_witness :
    applyOps (BufferState.init 2)
        [Op.produce ⟨4, 0, "a", 0⟩, Op.produce ⟨2, 1, "b", 1⟩, Op.consume]
      = some ⟨2, [⟨4, 0, "a", 0⟩], 2, 1, ⟨0, 1, 0, 1⟩⟩
    ∧ ((⟨2, [⟨4, 0, "a", 0⟩], 2, 1, ⟨0, 1, 0, 1⟩⟩ :
          BufferState).total_consumed
        ≤ (⟨2, [⟨4, 0, "a", 0⟩], 2, 1, ⟨0, 1, 0, 1⟩⟩ :
          BufferState).total_produced
      ∧ (⟨2, [⟨4, 0, "a", 0⟩], 2, 1, ⟨0, 1, 0, 1⟩⟩ :
            BufferState).total_produced
          - (⟨2, [⟨4, 0, "a", 0⟩], 2, 1, ⟨0, 1, 0, 1⟩⟩ :
            BufferState).total_consumed
        = (⟨2, [⟨4, 0, "a", 0⟩], 2, 1, ⟨0, 1, 0, 1⟩⟩ :
            BufferState).buffer.length) :=
  ⟨by decide, C4_counter_conservation 2
    [Op.produce ⟨4, 0, "a", 0⟩, Op.produce ⟨2, 1, "b", 1⟩, Op.consume]
    ⟨2, [⟨4, 0, "a", 0⟩], 2, 1, ⟨0, 1, 0, 1⟩⟩ (by decide)⟩

/-- Claim C5: on any completed history of well-formed operations (every
produced item carries one of the four declared priority values, as the
spec's data model requires and as every producer in the repository
guarantees), the per-priority counters sum to `totalProduced`; moreover a
completed produce raises exactly the counter of the produced item's
priority by one (and no other), a completed consume leaves every counter
unchanged, and along any completed history no counter ever decreases. -/
theorem C5_count_by_priority (m : Nat) (ops : List Op) (s : BufferState)
    (hwf : ops.all Op.wellFormed = true)
    (h : applyOps (BufferState.init m) ops = some s) :
    s.items_by_priority.sum = s.total_produced
    ∧ (∀ t item t2, BufferState.produce t item = some t2 → ∀ p,
        (t2.items_by_priority).get p = (t.items_by_priority).get p
          + (if Priority.ofInt? item.priority = some p then 1 else 0))
    ∧ (∀ t x t2, BufferState.consume t = some (x, t2) →
        t2.items_by_priority = t.items_by_priority)
    ∧ (∀ ops2 t t2, applyOps t ops2 = some t2 → ∀ p,
        (t.items_by_priority).get p ≤ (t2.items_by_priority).get p) := by
  have hbump : ∀ (t : BufferState) (item : PriorityItem) (t2 : BufferState),
      t.produce item = some t2 → ∀ p,
      (t2.items_by_priority).get p = (t.items_by_priority).get p
        + (if Priority.ofInt? item.priority = some p then 1 else 0) := by
    intro t item t2 hpr p
    obtain ⟨-, -, -, -, -, hcounts⟩ := BufferState.produce_eq hpr
    rw [hcounts]
    cases hofi : Priority.ofInt? item.priority with
    | none => simp [hofi]
    | some q => simp [hofi, PriorityCounts.get_bump]
  have hkeep : ∀ (t : BufferState) (x : PriorityItem) (t2 : BufferState),
      t.consume = some (x, t2) →
      t2.items_by_priority = t.items_by_priority := by
    intro t x t2 hcn
    exact (BufferState.consume_eq hcn).2.2.2.2
  refine ⟨?_, hbump, hkeep, ?_⟩
  · refine applyOps_preserves
        (fun t => t.items_by_priority.sum = t.total_produced)
        (fun op => Op.wellFormed op = true) ?_ ?_ ops
        (fun op hop => by
          rw [List.all_eq_true] at hwf
          exact hwf op hop)
        _ s (by simp [BufferState.init, PriorityCounts.sum]) h
    · rintro t item t2 hP hQ hpr
      obtain ⟨-, -, -, hprod, -, hcounts⟩ := BufferState.produce_eq hpr
      simp only [Op.wellFormed, Option.isSome_iff_exists] at hQ
      obtain ⟨q, hq⟩ := hQ
      rw [hcounts, hprod, hq, PriorityCounts.sum_bump, hP]
    · rintro t x t2 hP hcn
      obtain ⟨-, hprod, -, hcounts⟩ := (BufferState.consume_eq hcn).2
      rw [hcounts, hprod, hP]
  · intro ops2 t t2 h2 p
    refine applyOps_preserves
        (fun u => (t.items_by_priority).get p ≤ (u.items_by_priority).get p)
        (fun _ => True) ?_ ?_ ops2 (fun _ _ => trivial) t t2 le_rfl h2
    · rintro u item u2 hP - hpr
      have := hbump u item u2 hpr p
      omega
    · rintro u x u2 hP hcn
      rw [hkeep u x u2 hcn]
      exact hP

/-- Witness for C5 at a concrete well-formed history. -/
theorem C5_witness :
    ([Op.produce ⟨1, 0, "x", 0⟩, Op.produce ⟨4, 1, "y", 0⟩,
        Op.consume] : List Op).all Op.wellFormed = true
    ∧ applyOps (BufferState.init 2)
        [Op.produce ⟨1, 0, "x", 0⟩, Op.produce ⟨4, 1, "y", 0⟩, Op.consume]
      = some ⟨2, [⟨4, 1, "y", 0⟩], 2, 1, ⟨1, 0, 0, 1⟩⟩
    ∧ (⟨2, [⟨4, 1, "y", 0⟩], 2, 1, ⟨1, 0, 0, 1⟩⟩ :
        BufferState).items_by_priority.sum
      = (⟨2, [⟨4, 1, "y", 0⟩], 2, 1, ⟨1, 0, 0, 1⟩⟩ :
        BufferState).total_produced :=
  ⟨by decide, by decide,
    (C5_count_by_priority 2
      [Op.produce ⟨1, 0, "x", 0⟩, Op.produce ⟨4, 1, "y", 0⟩, Op.consume]
      ⟨2, [⟨4, 1, "y", 0⟩], 2, 1, ⟨1, 0, 0, 1⟩⟩
      (by decide) (by decide)).1⟩

/-- Counterexample to claim C1 as stated: two items of equal priority where
the earlier-created item A (`timestamp 1`) has the larger `item_id`.  The
dataclass order compares `item_id` before `timestamp`, so Consume returns
the later-created B first, refuting the createdAt-as-secondary-key
stability property. -/
theorem C1_counterexample :
    (⟨2, 5, "a", 1⟩ : PriorityItem).priority
      = (⟨2, 3, "b", 2⟩ : PriorityItem).priority
    ∧ (⟨2, 5, "a", 1⟩ : PriorityItem).timestamp
      ≤ (⟨2, 3, "b", 2⟩ : PriorityItem).timestamp
    ∧ (produceAll (BufferState.init 10)
          [⟨2, 5, "a", 1⟩, ⟨2, 3, "b", 2⟩]).bind
        (fun s => (s.consume).map (fun r => r.1)) = some ⟨2, 3, "b", 2⟩
    ∧ (⟨2, 3, "b", 2⟩ : PriorityItem) ≠ (⟨2, 5, "a", 1⟩ : PriorityItem) := by
  decide

/-- Claim C1 as amended: the queue-placement order's secondary key is the
item's `item_id` (with `data` and then `timestamp` as further tie-breaks),
not `createdAt`.  Hence for two items A and B of equal priority with
`A.item_id < B.item_id`, producing A then B and consuming twice returns
A then B; equal-priority items never reorder relative to each other only
when production order agrees with `item_id` order. -/
theorem C1_amended_stability (A B : PriorityItem) (m : Nat) (hm : 2 ≤ m)
    (hp : A.priority = B.priority) (hid : A.item_id < B.item_id) :
    (produceAll (BufferState.init m) [A, B]).bind
      (fun s => (s.consume).bind (fun r1 =>
        ((r1.2).consume).map (fun r2 => (r1.1, r2.1)))) = some (A, B) := by
  have h0 : 0 < m := by omega
  have h1 : 1 < m := by omega
  have hBA : PriorityItem.ltb B A = false := by
    have hne : B.priority ≠ A.priority → False := fun hc => hc hp.symm
    simp only [PriorityItem.ltb, hp]
    simp only [ne_eq, not_true_eq_false, if_false, ite_self]
    have : B.item_id ≠ A.item_id := by omega
    simp [this]
    omega
  simp [produceAll, BufferState.produce, BufferState.consume, popMin,
    BufferState.init, h0, h1, hBA]

/-- Witness for the amended C1 at concrete items: A is created later in
time than B but carries the smaller id, and is consumed first. -/
theorem C1_witness :
    2 ≤ 2
    ∧ (⟨3, 1, "a", 9⟩ : PriorityItem).priority
        = (⟨3, 2, "b", 4⟩ : PriorityItem).priority
    ∧ (⟨3, 1, "a", 9⟩ : PriorityItem).item_id
        < (⟨3, 2, "b", 4⟩ : PriorityItem).item_id
    ∧ (produceAll (BufferState.init 2)
          [⟨3, 1, "a", 9⟩, ⟨3, 2, "b", 4⟩]).bind
        (fun s => (s.consume).bind (fun r1 =>
          ((r1.2).consume).map (fun r2 => (r1.1, r2.1))))
      = some (⟨3, 1, "a", 9⟩, ⟨3, 2, "b", 4⟩) :=
  ⟨by decide, by decide, by decide,
    C1_amended_stability ⟨3, 1, "a", 9⟩ ⟨3, 2, "b", 4⟩ 2
      (by decide) (by decide) (by decide)⟩

/-- Claim C2: producing four items with priorities LOW, CRITICAL, MEDIUM,
HIGH (in that order) into a buffer with spare capacity and then consuming
four times returns them in the order CRITICAL, HIGH, MEDIUM, LOW — each
Consume removes the item with the lowest numeric priority value present. -/
theorem C2_priority_order (a b c d : PriorityItem) (m : Nat) (hm : 4 ≤ m)
    (ha : a.priority = Priority.LOW.toInt)
    (hb : b.priority = Priority.CRITICAL.toInt)
    (hc : c.priority = Priority.MEDIUM.toInt)
    (hd : d.priority = Priority.HIGH.toInt) :
    (produceAll (BufferState.init m) [a, b, c, d]).bind
      (fun s => (consumeN s 4).map (fun r => r.1)) = some [b, d, c, a] := by
  obtain ⟨pa, ia, da, ta⟩ := a
  obtain ⟨pb, ib, db, tb⟩ := b
  obtain ⟨pc, ic, dc, tc⟩ := c
  obtain ⟨pd, idd, dd, td⟩ := d
  simp only at ha hb hc hd
  simp only [Priority.toInt] at ha hb hc hd
  subst ha hb hc hd
  have h0 : 0 < m := by omega
  have h1 : 1 < m := by omega
  have h2 : 2 < m := by omega
  have h3 : 3 < m := by omega
  simp [produceAll, BufferState.produce, BufferState.init, h0, h1, h2, h3,
    consumeN, BufferState.consume, popMin, PriorityItem.ltb]

/-- Witness for C2 at concrete items. -/
theorem C2_witness :
    4 ≤ 4
    ∧ (⟨4, 0, "l", 0⟩ : PriorityItem).priority = Priority.LOW.toInt
    ∧ (⟨1, 1, "c", 1⟩ : PriorityItem).priority = Priority.CRITICAL.toInt
    ∧ (⟨3, 2, "m", 2⟩ : PriorityItem).priority = Priority.MEDIUM.toInt
    ∧ (⟨2, 3, "h", 3⟩ : PriorityItem).priority = Priority.HIGH.toInt
    ∧ (produceAll (BufferState.init 4)
          [⟨4, 0, "l", 0⟩, ⟨1, 1, "c", 1⟩, ⟨3, 2, "m", 2⟩, ⟨2, 3, "h", 3⟩]).bind
        (fun s => (consumeN s 4).map (fun r => r.1))
      = some [⟨1, 1, "c", 1⟩, ⟨2, 3, "h", 3⟩, ⟨3, 2, "m", 2⟩, ⟨4, 0, "l", 0⟩] :=
  ⟨by decide, by decide, by decide, by decide, by decide,
    C2_priority_order ⟨4, 0, "l", 0⟩ ⟨1, 1, "c", 1⟩ ⟨3, 2, "m", 2⟩
      ⟨2, 3, "h", 3⟩ 4 (by decide) (by decide) (by decide) (by decide)
      (by decide)⟩

/-- Counterexample to claim C6 as stated: constructing the buffer with
`maxSize = 0` does not fail — `queue.PriorityQueue(maxsize=0)` is unbounded
and `threading.Semaphore(0)` is legal, so `__init__` completes normally. -/
theorem C6_counterexample : (PriorityBuffer.mkBuffer 0).isSome = true := by
  decide

/-- Claim C6 as amended: construction with `maxSize = 0` succeeds (returns
the empty zero-capacity buffer rather than rejecting the configuration);
the resulting buffer never enables a Produce (every call would block on
`empty_slots` forever), and construction fails only for a negative
`maxSize`, where `threading.Semaphore` raises ValueError. -/
theorem C6_amended_zero_capacity :
    PriorityBuffer.mkBuffer 0 = some (BufferState.init 0)
    ∧ (∀ item, (BufferState.init 0).produce item = none)
    ∧ PriorityBuffer.mkBuffer (-1) = none := by
  refine ⟨by decide, ?_, by decide⟩
  intro item
  simp [BufferState.produce, BufferState.init]

/-- Counterexample to claim C7 as stated: for each of the four parameters,
a request with that parameter equal to 0 (≤ 0) is not rejected — the
controller launches a session anyway (`range(0)` silently yields zero
workers; a zero buffer size builds a dead buffer). -/
theorem C7_counterexample :
    (start_system false 0 3 20 10).isStarted = true
    ∧ (start_system false 2 0 20 10).isStarted = true
    ∧ (start_system false 2 3 0 10).isStarted = true
    ∧ (start_system false 2 3 20 0).isStarted = true := by
  decide

/-- Claim C7 as amended: `start_system` validates nothing.  With no active
session it launches a session for every configuration with a non-negative
`buffer_size`, turning non-positive producer/consumer counts into zero
workers of that kind and passing a non-positive `items_per_producer`
straight through; a negative `buffer_size` is the only rejected case, and
it surfaces as an uncaught ValueError (HTTP 500), not as a configuration
error response. -/
theorem C7_amended_no_checks (np nc ipp bs : Int) :
    (0 ≤ bs → start_system false np nc ipp bs
      = .started (BufferState.init bs.toNat) np.toNat nc.toNat ipp)
    ∧ (bs < 0 → start_system false np nc ipp bs = .valueError) := by
  constructor
  · intro h
    simp [start_system, PriorityBuffer.mkBuffer, not_lt.mpr h]
  · intro h
    simp [start_system, PriorityBuffer.mkBuffer, h]

/-- Witness for the amended C7: a request with zero producers launches a
session with zero producer workers. -/
theorem C7_witness :
    (0 : Int) ≤ 10
    ∧ start_system false 0 3 20 10
      = .started (BufferState.init 10) 0 3 20 :=
  ⟨by decide, (C7_amended_no_checks 0 3 20 10).1 (by decide)⟩

/-- Claim C8: while a buffer exists, an AddItem call with a priority name
outside the four member names fails with the invalid-priority error and
hands nothing to the buffer (no produce is spawned, so contents and all
counters are untouched); with a recognized name it constructs a
`PriorityItem` with the sentinel id `-1` and that priority's numeric value
and submits exactly that item. -/
theorem C8_add_item_validation (now : Int) (b : BufferState)
    (pname pdata : String) :
    (Priority.fromName pname = none →
      add_item now (some b) pname pdata = (.invalidPriority pname, none))
    ∧ (∀ p, Priority.fromName pname = some p →
      add_item now (some b) pname pdata
        = (.added pname pdata, some ⟨p.toInt, -1, pdata, now⟩)) := by
  constructor
  · intro h
    simp [add_item, h]
  · intro p h
    simp [add_item, h]

/-- Witness for C8: one unknown name is rejected without touching the
buffer, one known name submits the sentinel item. -/
theorem C8_witness :
    Priority.fromName "URGENT" = none
    ∧ add_item 7 (some (BufferState.init 5)) "URGENT" "x"
      = (.invalidPriority "URGENT", none)
    ∧ Priority.fromName "HIGH" = some Priority.HIGH
    ∧ add_item 7 (some (BufferState.init 5)) "HIGH" "x"
      = (.added "HIGH" "x", some ⟨2, -1, "x", 7⟩) :=
  ⟨by decide,
    (C8_add_item_validation 7 (BufferState.init 5) "URGENT" "x").1 (by decide),
    by decide,
    (C8_add_item_validation 7 (BufferState.init 5) "HIGH" "x").2
      Priority.HIGH (by decide)⟩

/-- Claim C10: before any session has created a buffer, every AddItem call
fails with the not-initialized error, with no priority validation and no
buffer mutation — in particular an unknown priority name still yields the
not-initialized error, never the invalid-priority one, because the
`if not buffer` guard precedes the `Priority[...]` lookup. -/
theorem C10_uninitialized_add_item (now : Int) (pname pdata : String) :
    add_item now none pname pdata = (.notInitialized, none) := rfl
